import Mathlib

/-!
Verification of espMqttClient_sub: reconnect timer and LED control handler.

A shallow embedding of `src/espMqttClient_sub/src/main.cpp`.

* The global variables of the sketch (`tActual`, `tPrevioMqttReconnect`, `mqttReconnect`) and
  the level last written to `ledPin` form the `State`.
* Every call the sketch makes on `mqttClient` (`connect`, `publish`, `subscribe`) is appended
  to the ghost field `State.requests`, oldest first, so that "issues a connect attempt" is a
  statement about that list.
* What the sketch reads from its environment is passed as an argument: the value returned by
  `millis()`, the value returned by `mqttClient.connect()`, the value of `WiFi.isConnected()`
  and the packet ids returned by `publish` / `subscribe`.
* `uint32_t` values are naturals reduced modulo `2 ^ 32`.
* A `char` is a Lean `Char`; a byte buffer or character string is a `List Char`.
* `Serial` output is not modelled: it never feeds back into the program. Memory allocation
  inside `String` is taken to succeed.
-/

namespace EspMqttClientSub

/-! ## Constants of the sketch -/

/-- Client id registered at the broker (`MQTT_CLIENTID`). -/
def MQTT_CLIENTID : String := "ESP32testing1"

/-- Status topic (`TOPIC_STATUS`). -/
def TOPIC_STATUS : String := "ESP/status"

/-- Control topic (`TOPIC_CONTROL`). -/
def TOPIC_CONTROL : String := "ESP/control"

/-- Retry interval in milliseconds (`const uint16_t intervaloMqttReconnect = 10000`). -/
def intervaloMqttReconnect : Nat := 10000

/-- Number of values of a `uint32_t`. -/
def U32 : Nat := 4294967296

/-- Subtraction of two `uint32_t` values as the C expression `a - b` computes it:
the difference modulo `2 ^ 32`. -/
def sub32 (a b : Nat) : Nat := (a % U32 + (U32 - b % U32)) % U32

/-! ## The Arduino `String` operations used by `onMqttMessage`

`String` is the Arduino core class (`WString.cpp`); the sketch uses `+=` with a `char`,
`trim()` and `==` against a string literal. A `String` keeps its own length, so a zero byte
appended with `+=` stays inside the buffer, while `==` against a `const char *` is `strcmp`
on the buffer and stops at the first zero byte. -/

/-- The zero byte that terminates a C string. -/
def NUL : Char := Char.ofNat 0

/-- C `isspace` in the "C" locale: space, `\t`, `\n`, `\v`, `\f`, `\r`. -/
def isspace (c : Char) : Bool :=
  c.toNat == 32 || (9 ≤ c.toNat && c.toNat ≤ 13)

/-- The text a character buffer denotes when read as a C string: the characters before the
first zero byte (what `c_str()` shows to `strcmp` and to `printf("%s")`). -/
def c_str (buf : List Char) : List Char :=
  buf.takeWhile (fun c => c != NUL)

/-- The loop `for (i = 0; i < len; ++i) msg += (char)payload[i];` starting from `msg = ""`:
every byte of the payload is appended, so the buffer of `msg` is the payload itself. -/
def concatPayload (payload : List Char) : List Char :=
  payload.foldl (fun msg c => msg ++ [c]) []

/-- Model of `String::trim()`: `begin` advances over leading `isspace` characters, `end` retreats over
trailing ones (never past `begin`), and the characters in between are kept. -/
def trim (msg : List Char) : List Char :=
  ((msg.dropWhile isspace).reverse.dropWhile isspace).reverse

/-- Model of `String::operator==(const char *)`, that is `String::equals(const char *)`:
`strcmp(buffer, cstr) == 0`, with an empty `String` equal only to an empty literal. -/
def equals (msg : List Char) (cstr : String) : Bool :=
  c_str msg == cstr.toList

/-! ## State -/

/-- A call made on `mqttClient`. -/
inductive Request where
  | connect
  | publish (topic : String) (qos : Nat) (retain : Bool) (payload : String)
  | subscribe (topic : String) (qos : Nat)
  deriving DecidableEq, Repr

/-- The global variables of the sketch, the output level of `ledPin`, and the log of calls
made on `mqttClient`. -/
structure State where
  /-- Level last written to `ledPin` with `digitalWrite` (`true` = 1 = LED on). -/
  led : Bool
  /-- The global `uint32_t tActual`. -/
  tActual : Nat
  /-- The global `uint32_t tPrevioMqttReconnect`. -/
  tPrevioMqttReconnect : Nat
  /-- The global `bool mqttReconnect`. -/
  mqttReconnect : Bool
  /-- Calls made on `mqttClient` so far, oldest first. -/
  requests : List Request
  deriving DecidableEq, Repr

/-- The state when `setup()` returns: LED written low, globals at their initial values, and
an empty request log (`setup()` only configures `mqttClient`). -/
def boot : State :=
  { led := false, tActual := 0, tPrevioMqttReconnect := 0, mqttReconnect := false,
    requests := [] }

/-- The call `digitalWrite(ledPin, level)`. -/
def digitalWrite (level : Bool) (s : State) : State :=
  { s with led := level }

/-! ## The message callback -/

/-- The callback `onMqttMessage(properties, topic, payload, len, index, total)`.
`topic` is the text of the C string `topic`, `payload` the `len` bytes at `payload`.
`properties`, `index` and `total` are only printed or not read at all. -/
def onMqttMessage (topic : List Char) (payload : List Char) (s : State) : State :=
  let msg := trim (concatPayload payload)
  if equals topic TOPIC_CONTROL then
    let s1 := if equals msg "0" then digitalWrite false s else s
    if equals msg "1" then digitalWrite true s1 else s1
  else s

/-! ## Connection supervision -/

/-- The function `connectToMqtt()`. `connectOk` is the value returned by `mqttClient.connect()` and
`millis` the value returned by `millis()` in the failure branch. -/
def connectToMqtt (connectOk : Bool) (millis : Nat) (s : State) : State :=
  let s1 := { s with requests := s.requests ++ [Request.connect] }
  if !connectOk then
    { s1 with mqttReconnect := true, tPrevioMqttReconnect := millis % U32 }
  else
    { s1 with mqttReconnect := false }

/-- The function `loop()`. `millis` is the value returned by `millis()` in the first statement;
`connectOk` and `millisFail` are what `connectToMqtt` reads should it be called. -/
def loop (millis : Nat) (connectOk : Bool) (millisFail : Nat) (s : State) : State :=
  let s1 := { s with tActual := millis % U32 }
  if s1.mqttReconnect && decide (sub32 s1.tActual s1.tPrevioMqttReconnect > intervaloMqttReconnect) then
    connectToMqtt connectOk millisFail s1
  else s1

/-- The values of `WiFiEvent_t` that `WiFiStatus` distinguishes. -/
inductive WiFiEvent where
  | SYSTEM_EVENT_STA_GOT_IP
  | SYSTEM_EVENT_STA_DISCONNECTED
  | other (code : Nat)
  deriving DecidableEq, Repr

/-- The callback `WiFiStatus(event)`. `connectOk` and `millis` are what `connectToMqtt` reads should it
be called. -/
def WiFiStatus (event : WiFiEvent) (connectOk : Bool) (millis : Nat) (s : State) : State :=
  match event with
  | WiFiEvent.SYSTEM_EVENT_STA_GOT_IP => connectToMqtt connectOk millis s
  | WiFiEvent.SYSTEM_EVENT_STA_DISCONNECTED => s
  | WiFiEvent.other _ => s

/-- The callback `onMqttConnect(sessionPresent)`. `WELCOME_MSG` is `MQTT_CLIENTID` followed by
`" conectado"` (23 characters, inside the 50 byte buffer). `publishId` and `subscribeId` are
the packet ids returned by `publish` and `subscribe`; the sketch discards both, and
`sessionPresent` is only printed. -/
def onMqttConnect (sessionPresent : Bool) (publishId subscribeId : Nat) (s : State) : State :=
  let WELCOME_MSG := MQTT_CLIENTID ++ " conectado"
  let QOS_STATUS := 1
  let s1 := { s with requests := s.requests ++ [Request.publish TOPIC_STATUS QOS_STATUS false WELCOME_MSG] }
  { s1 with requests := s1.requests ++ [Request.subscribe TOPIC_CONTROL 1] }

/-- The callback `onMqttDisconnect(reason)`. `wifiConnected` is the value of `WiFi.isConnected()`,
`millis` the value returned by `millis()`; `reason` is only printed. -/
def onMqttDisconnect (reason : Nat) (wifiConnected : Bool) (millis : Nat) (s : State) : State :=
  if wifiConnected then
    { s with mqttReconnect := true, tPrevioMqttReconnect := millis % U32 }
  else s

/-- The callback `onMqttSubscribe(packetId, codes, len)`: prints only. -/
def onMqttSubscribe (packetId : Nat) (codes : List Nat) (s : State) : State := s

/-- The callback `onMqttUnsubscribe(packetId)`: prints only. -/
def onMqttUnsubscribe (packetId : Nat) (s : State) : State := s

/-- The callback `onMqttPublish(packetId)`: prints only. -/
def onMqttPublish (packetId : Nat) (s : State) : State := s

/-! ## Runs

The Arduino runtime calls `loop()` over and over, the WiFi stack calls `WiFiStatus`, and the
MQTT client calls the `onMqtt...` callbacks, one at a time. An `Event` is one such call
together with the values the callee reads from its environment. -/

/-- One call into the sketch. -/
inductive Event where
  | tick (millis : Nat) (connectOk : Bool) (millisFail : Nat)
  | wifi (event : WiFiEvent) (connectOk : Bool) (millis : Nat)
  | mqttConnect (sessionPresent : Bool) (publishId subscribeId : Nat)
  | mqttDisconnect (reason : Nat) (wifiConnected : Bool) (millis : Nat)
  | mqttSubscribe (packetId : Nat) (codes : List Nat)
  | mqttUnsubscribe (packetId : Nat)
  | mqttPublish (packetId : Nat)
  | mqttMessage (topic payload : List Char)
  deriving DecidableEq, Repr

/-- The sketch handles one event. -/
def step (s : State) : Event → State
  | Event.tick millis connectOk millisFail => loop millis connectOk millisFail s
  | Event.wifi event connectOk millis => WiFiStatus event connectOk millis s
  | Event.mqttConnect sessionPresent publishId subscribeId =>
      onMqttConnect sessionPresent publishId subscribeId s
  | Event.mqttDisconnect reason wifiConnected millis =>
      onMqttDisconnect reason wifiConnected millis s
  | Event.mqttSubscribe packetId codes => onMqttSubscribe packetId codes s
  | Event.mqttUnsubscribe packetId => onMqttUnsubscribe packetId s
  | Event.mqttPublish packetId => onMqttPublish packetId s
  | Event.mqttMessage topic payload => onMqttMessage topic payload s

/-- The sketch handles a sequence of events, first to last. -/
def run (s : State) (events : List Event) : State :=
  events.foldl step s

/-- Number of `connect` calls in a request log. -/
def connectCount (requests : List Request) : Nat :=
  requests.count Request.connect

/-- The event is the WiFi stack reporting `SYSTEM_EVENT_STA_GOT_IP` (link up). -/
def Event.isGotIp : Event → Bool
  | Event.wifi WiFiEvent.SYSTEM_EVENT_STA_GOT_IP _ _ => true
  | _ => false

/-- The event is a broker callback that ends a connection attempt: `onMqttConnect` or
`onMqttDisconnect`. -/
def Event.isBrokerCallback : Event → Bool
  | Event.mqttConnect _ _ _ => true
  | Event.mqttDisconnect _ _ _ => true
  | _ => false

/-- The event is `onMqttDisconnect` delivered while `WiFi.isConnected()` is true. -/
def Event.isDisconnectWithWiFi : Event → Bool
  | Event.mqttDisconnect _ true _ => true
  | _ => false

/-- The value `mqttClient.connect()` returns to the handler of the event, for the two
handlers that may call it. -/
def Event.connectOk : Event → Bool
  | Event.tick _ connectOk _ => connectOk
  | Event.wifi _ connectOk _ => connectOk
  | _ => false

/-- Handling the event in state `s` calls `mqttClient.connect()`. -/
def callsConnect (s : State) (e : Event) : Bool :=
  decide (connectCount s.requests < connectCount (step s e).requests)

/-- An event under which the retry flag cannot become set: anything but a
`SYSTEM_EVENT_STA_GOT_IP` (whose `connect()` may fail) and an `onMqttDisconnect` that sees
`WiFi.isConnected()`. -/
def Event.isQuiet (e : Event) : Bool :=
  !e.isGotIp && !e.isDisconnectWithWiFi

/-- Ghost observer of a run. A connection attempt is in flight from a `connect()` that
returned true until the next `onMqttConnect` or `onMqttDisconnect`. -/
structure Flight where
  /-- An initiated attempt still waits for its broker callback. -/
  inFlight : Bool
  /-- Some `connect()` was called while an attempt was in flight. -/
  overlap : Bool
  /-- Some `SYSTEM_EVENT_STA_GOT_IP` was delivered while an attempt was in flight. -/
  gotIpInFlight : Bool
  deriving DecidableEq, Repr

/-- The observer before any event. -/
def Flight.start : Flight :=
  { inFlight := false, overlap := false, gotIpInFlight := false }

/-- The observer after the sketch, in state `s`, handles event `e`. -/
def Flight.observe (f : Flight) (s : State) (e : Event) : Flight :=
  { inFlight :=
      if callsConnect s e && e.connectOk then true
      else if e.isBrokerCallback then false
      else f.inFlight
    overlap := f.overlap || (callsConnect s e && f.inFlight)
    gotIpInFlight := f.gotIpInFlight || (e.isGotIp && f.inFlight) }

/-- The observer after a run of the sketch from state `s`. -/
def monitor (f : Flight) (s : State) : List Event → Flight
  | [] => f
  | e :: events => monitor (f.observe s e) (step s e) events

/-- The event is a `SYSTEM_EVENT_STA_GOT_IP` whose `mqttClient.connect()` returns false: a
failed attempt, which sets the retry flag. -/
def Event.isFailedGotIp : Event → Bool
  | Event.wifi WiFiEvent.SYSTEM_EVENT_STA_GOT_IP false _ => true
  | _ => false

/-! ## Specification-side notions -/

/-- The buffer reads as the text `lit`: it is `lit` itself, or `lit` followed by a zero byte
and any further bytes. -/
def ReadsAs (buf : List Char) (lit : String) : Prop :=
  buf = lit.toList ∨ ∃ rest : List Char, buf = lit.toList ++ NUL :: rest

/-- The list `q` is `p` stripped of its leading and trailing whitespace: `p` is `q` between two runs
of whitespace characters, and `q` neither starts nor ends with a whitespace character. -/
def IsStripped (p q : List Char) : Prop :=
  ∃ pre post : List Char, p = pre ++ q ++ post ∧
    (∀ c ∈ pre, isspace c = true) ∧ (∀ c ∈ post, isspace c = true) ∧
    (∀ c, q.head? = some c → isspace c = false) ∧
    (∀ c, q.getLast? = some c → isspace c = false)

/-! ## Lemmas on the `String` operations -/

theorem foldl_concat_eq (payload acc : List Char) :
    payload.foldl (fun msg c => msg ++ [c]) acc = acc ++ payload := by
  induction payload generalizing acc with
  | nil => simp
  | cons c cs ih => simp [List.foldl_cons, ih]

theorem concatPayload_eq (payload : List Char) : concatPayload payload = payload := by
  simp [concatPayload, foldl_concat_eq]

theorem dropWhile_append_of_all (f : Char → Bool) (pre rest : List Char)
    (h : ∀ c ∈ pre, f c = true) : (pre ++ rest).dropWhile f = rest.dropWhile f := by
  induction pre with
  | nil => rfl
  | cons c cs ih =>
    have hc : f c = true := h c (List.mem_cons_self c cs)
    have hcs : ∀ d ∈ cs, f d = true := fun d hd => h d (List.mem_cons_of_mem c hd)
    simp [List.dropWhile_cons, hc, ih hcs]

theorem dropWhile_of_all (f : Char → Bool) (l : List Char)
    (h : ∀ c ∈ l, f c = true) : l.dropWhile f = [] := by
  have := dropWhile_append_of_all f l [] h
  simpa using this

theorem dropWhile_of_head (f : Char → Bool) (l : List Char)
    (h : ∀ c, l.head? = some c → f c = false) : l.dropWhile f = l := by
  cases l with
  | nil => rfl
  | cons c cs =>
    have hc : f c = false := h c rfl
    simp [List.dropWhile_cons, hc]

theorem trim_of_isStripped (p q : List Char) (h : IsStripped p q) : trim p = q := by
  obtain ⟨pre, post, hp, hpre, hpost, hhead, hlast⟩ := h
  subst hp
  unfold trim
  rw [List.append_assoc, dropWhile_append_of_all isspace pre (q ++ post) hpre]
  cases q with
  | nil =>
    simp only [List.nil_append]
    rw [dropWhile_of_all isspace post hpost]
    rfl
  | cons c cs =>
    rw [dropWhile_of_head isspace ((c :: cs) ++ post) (by
      intro d hd
      exact hhead d (by simpa using hd))]
    rw [List.reverse_append,
      dropWhile_append_of_all isspace post.reverse (c :: cs).reverse (by
        intro d hd
        exact hpost d (List.mem_reverse.mp hd))]
    rw [dropWhile_of_head isspace (c :: cs).reverse (by
      intro d hd
      apply hlast d
      rw [List.head?_reverse] at hd
      exact hd)]
    exact List.reverse_reverse _

theorem head?_dropWhile_isspace (l : List Char) (c : Char)
    (h : (l.dropWhile isspace).head? = some c) : isspace c = false := by
  have := List.head?_dropWhile_not isspace l
  rw [h] at this
  exact this

theorem isStripped_trim (p : List Char) : IsStripped p (trim p) := by
  have hd : (p.dropWhile isspace) = trim p ++ ((p.dropWhile isspace).reverse.takeWhile isspace).reverse := by
    unfold trim
    rw [← List.reverse_append, List.takeWhile_append_dropWhile, List.reverse_reverse]
  refine ⟨p.takeWhile isspace, ((p.dropWhile isspace).reverse.takeWhile isspace).reverse,
    ?_, ?_, ?_, ?_, ?_⟩
  · rw [List.append_assoc, ← hd, List.takeWhile_append_dropWhile]
  · intro c hc
    exact List.mem_takeWhile_imp hc
  · intro c hc
    exact List.mem_takeWhile_imp (List.mem_reverse.mp hc)
  · intro c hc
    apply head?_dropWhile_isspace p c
    rw [hd]
    cases hq : trim p with
    | nil => rw [hq] at hc; simp at hc
    | cons a as =>
      rw [hq] at hc
      simpa using hc
  · intro c hc
    unfold trim at hc
    rw [List.getLast?_reverse] at hc
    exact head?_dropWhile_isspace _ c hc

theorem isStripped_self_of_trim (p : List Char) : IsStripped (trim p) (trim p) := by
  obtain ⟨_, _, _, _, _, hhead, hlast⟩ := isStripped_trim p
  exact ⟨[], [], by simp, by simp, by simp, hhead, hlast⟩

theorem trim_trim (p : List Char) : trim (trim p) = trim p :=
  trim_of_isStripped _ _ (isStripped_self_of_trim p)

theorem trim_stripped (p q : List Char) (h : IsStripped p q) : trim q = q := by
  have hq := trim_of_isStripped p q h
  rw [← hq]
  exact trim_trim p

theorem c_str_of_no_nul (l : List Char) (h : NUL ∉ l) : c_str l = l := by
  unfold c_str
  rw [List.takeWhile_eq_self_iff]
  intro c hc
  have : c ≠ NUL := fun e => h (e ▸ hc)
  simpa using this

/-! ## The message callback: claims C1, C2, C3 -/

theorem c_str_trim_of_no_nul (payload : List Char) (h : NUL ∉ payload) :
    c_str (trim payload) = trim payload := by
  apply c_str_of_no_nul
  intro hmem
  obtain ⟨pre, post, hp, _⟩ := isStripped_trim payload
  apply h
  rw [hp]
  simp [hmem]

theorem onMqttMessage_control (payload : List Char) (s : State) :
    onMqttMessage TOPIC_CONTROL.toList payload s =
      if c_str (trim payload) = "1".toList then { s with led := true }
      else if c_str (trim payload) = "0".toList then { s with led := false }
      else s := by
  have ht : equals TOPIC_CONTROL.toList TOPIC_CONTROL = true := by decide
  have e : ∀ lit : String,
      equals (trim payload) lit = decide (c_str (trim payload) = lit.toList) := by
    intro lit
    unfold equals
    generalize c_str (trim payload) = a
    generalize lit.toList = b
    by_cases h : a = b
    · simp [h]
    · simp [h]
  unfold onMqttMessage
  rw [concatPayload_eq]
  simp only [ht, if_true, e, digitalWrite, decide_eq_true_eq]
  by_cases h1 : c_str (trim payload) = "1".toList
  · by_cases h0 : c_str (trim payload) = "0".toList
    · rw [h1] at h0
      exact absurd h0 (by decide)
    · rw [if_pos h1, if_neg h0, if_pos h1]
  · by_cases h0 : c_str (trim payload) = "0".toList
    · rw [if_neg h1, if_pos h0, if_neg h1]
    · rw [if_neg h1, if_neg h0, if_neg h1]

theorem c_str_append_nul (lit rest : List Char) (h : NUL ∉ lit) :
    c_str (lit ++ NUL :: rest) = lit := by
  induction lit with
  | nil => simp [c_str]
  | cons c cs ih =>
    have hc : c ≠ NUL := fun e => h (e ▸ List.mem_cons_self c cs)
    have hcs : NUL ∉ cs := fun hm => h (List.mem_cons_of_mem c hm)
    have ih2 := ih hcs
    unfold c_str at ih2 ⊢
    simp [List.takeWhile_cons, hc, ih2]

theorem c_str_eq_iff (buf lit : List Char) (h : NUL ∉ lit) :
    c_str buf = lit ↔ (buf = lit ∨ ∃ rest : List Char, buf = lit ++ NUL :: rest) := by
  constructor
  · intro hb
    have hsplit := List.takeWhile_append_dropWhile (fun c => c != NUL) buf
    unfold c_str at hb
    rw [hb] at hsplit
    cases hd : buf.dropWhile (fun c => c != NUL) with
    | nil =>
      left
      rw [hd] at hsplit
      simpa using hsplit.symm
    | cons a rest =>
      right
      have hn := List.head?_dropWhile_not (fun c => c != NUL) buf
      rw [hd] at hn hsplit
      have ha : a = NUL := by simpa using hn
      exact ⟨rest, by rw [← hsplit, ha]⟩
  · rintro (hb | ⟨rest, hb⟩)
    · rw [hb]
      exact c_str_of_no_nul lit h
    · rw [hb]
      exact c_str_append_nul lit rest h

theorem readsAs_iff (buf : List Char) (lit : String) (h : NUL ∉ lit.toList) :
    ReadsAs buf lit ↔ c_str buf = lit.toList :=
  (c_str_eq_iff buf lit.toList h).symm

/-- C1 fails on a payload with a zero byte: the three bytes "1", zero, "A" trim to
themselves, which is neither "0" nor "1", yet `onMqttMessage` on the control topic switches
the LED on, because `msg == "1"` compares up to the first zero byte. -/
theorem C1_counterexample :
    trim ("1".toList ++ NUL :: "A".toList) ≠ "0".toList ∧
    trim ("1".toList ++ NUL :: "A".toList) ≠ "1".toList ∧
    boot.led = false ∧
    (onMqttMessage TOPIC_CONTROL.toList ("1".toList ++ NUL :: "A".toList) boot).led = true := by
  decide

/-- C1, amended: on the control topic "ESP/control", for every prior state, payload "1"
leaves the LED on and payload "0" leaves it off (nothing else changes). More generally the
LED is switched on by every payload whose trimmed bytes are "1", or "1" followed by a zero
byte and anything, and off by every payload whose trimmed bytes are "0", or "0" followed by
a zero byte and anything; every other payload leaves the whole state as it was. In
particular a payload without zero byte whose trimmed bytes are neither "0" nor "1" changes
nothing, and neither do payload "2" and the empty payload. -/
theorem C1_control_payload_drives_led :
    (∀ s : State, onMqttMessage TOPIC_CONTROL.toList "1".toList s = { s with led := true }) ∧
    (∀ s : State, onMqttMessage TOPIC_CONTROL.toList "0".toList s = { s with led := false }) ∧
    (∀ (s : State) (payload : List Char), ReadsAs (trim payload) "1" →
        onMqttMessage TOPIC_CONTROL.toList payload s = { s with led := true }) ∧
    (∀ (s : State) (payload : List Char), ReadsAs (trim payload) "0" →
        onMqttMessage TOPIC_CONTROL.toList payload s = { s with led := false }) ∧
    (∀ (s : State) (payload : List Char),
        ¬ ReadsAs (trim payload) "0" → ¬ ReadsAs (trim payload) "1" →
        onMqttMessage TOPIC_CONTROL.toList payload s = s) ∧
    (∀ (s : State) (payload : List Char), NUL ∉ payload →
        trim payload ≠ "0".toList → trim payload ≠ "1".toList →
        onMqttMessage TOPIC_CONTROL.toList payload s = s) ∧
    (∀ s : State, onMqttMessage TOPIC_CONTROL.toList "2".toList s = s) ∧
    (∀ s : State, onMqttMessage TOPIC_CONTROL.toList [] s = s) := by
  have r1 : ∀ buf : List Char, ReadsAs buf "1" ↔ c_str buf = "1".toList :=
    fun buf => readsAs_iff buf "1" (by decide)
  have r0 : ∀ buf : List Char, ReadsAs buf "0" ↔ c_str buf = "0".toList :=
    fun buf => readsAs_iff buf "0" (by decide)
  refine ⟨?_, ?_, ?_, ?_, ?_, ?_, ?_, ?_⟩
  · intro s
    rw [onMqttMessage_control]
    rw [if_pos (by decide)]
  · intro s
    rw [onMqttMessage_control]
    rw [if_neg (by decide), if_pos (by decide)]
  · intro s payload h1
    rw [onMqttMessage_control, if_pos ((r1 _).mp h1)]
  · intro s payload h0
    have e0 := (r0 _).mp h0
    have n1 : c_str (trim payload) ≠ "1".toList := by
      rw [e0]
      decide
    rw [onMqttMessage_control, if_neg n1, if_pos e0]
  · intro s payload h0 h1
    rw [onMqttMessage_control, if_neg (fun e => h1 ((r1 _).mpr e)),
      if_neg (fun e => h0 ((r0 _).mpr e))]
  · intro s payload hz h0 h1
    rw [onMqttMessage_control, c_str_trim_of_no_nul payload hz, if_neg h1, if_neg h0]
  · intro s
    rw [onMqttMessage_control]
    rw [if_neg (by decide), if_neg (by decide)]
  · intro s
    rw [onMqttMessage_control]
    rw [if_neg (by decide), if_neg (by decide)]

/-- C1, amended, at four payloads: "on" changes nothing, " 1\n" switches the LED on, the
bytes "0", zero, "x" switch it off, and " 10 " changes nothing. -/
theorem C1_control_payload_drives_led_witness :
    onMqttMessage TOPIC_CONTROL.toList "on".toList boot = boot ∧
    onMqttMessage TOPIC_CONTROL.toList " 1\n".toList boot = { boot with led := true } ∧
    onMqttMessage TOPIC_CONTROL.toList ("0".toList ++ NUL :: "x".toList)
      { boot with led := true } = { boot with led := false } ∧
    onMqttMessage TOPIC_CONTROL.toList " 10 ".toList { boot with led := true } =
      { boot with led := true } :=
  ⟨C1_control_payload_drives_led.2.2.2.2.1 boot "on".toList
    (fun h => absurd ((readsAs_iff _ "0" (by decide)).mp h) (by decide))
    (fun h => absurd ((readsAs_iff _ "1" (by decide)).mp h) (by decide)),
   C1_control_payload_drives_led.2.2.1 boot " 1\n".toList (Or.inl (by decide)),
   C1_control_payload_drives_led.2.2.2.1 { boot with led := true }
    ("0".toList ++ NUL :: "x".toList) (Or.inr ⟨"x".toList, by decide⟩),
   C1_control_payload_drives_led.2.2.2.2.2.1 { boot with led := true } " 10 ".toList
    (by decide) (by decide) (by decide)⟩

/-- C2: for every topic string (the text of a C string, so free of zero bytes) different
from the control topic "ESP/control", every payload and every prior state, `onMqttMessage`
returns the state unchanged: LED level, retry flag, retry timestamp and request log. -/
theorem C2_other_topic_changes_nothing (topic payload : List Char) (s : State)
    (hwf : NUL ∉ topic) (hne : topic ≠ TOPIC_CONTROL.toList) :
    onMqttMessage topic payload s = s := by
  have ht : equals topic TOPIC_CONTROL = false := by
    unfold equals
    rw [c_str_of_no_nul topic hwf]
    simpa using hne
  unfold onMqttMessage
  simp [ht]

/-- C2 at topic "ESP/status" with payload "1", in a state whose LED is on. -/
theorem C2_other_topic_changes_nothing_witness :
    onMqttMessage "ESP/status".toList "1".toList { boot with led := true } =
      { boot with led := true } :=
  C2_other_topic_changes_nothing "ESP/status".toList "1".toList { boot with led := true }
    (by decide) (by decide)

/-- C3: on the control topic, for every prior state, a payload `p` and the payload `q`
obtained by stripping the leading and trailing whitespace of `p` give the same resulting
state; `trim` computes that stripped payload; payload " 1 \n" is treated as payload "1";
and trimming is idempotent. -/
theorem C3_surrounding_whitespace_ignored :
    (∀ (p q : List Char) (s : State), IsStripped p q →
        onMqttMessage TOPIC_CONTROL.toList p s = onMqttMessage TOPIC_CONTROL.toList q s) ∧
    (∀ p : List Char, IsStripped p (trim p)) ∧
    (∀ s : State, onMqttMessage TOPIC_CONTROL.toList " 1 \n".toList s =
        onMqttMessage TOPIC_CONTROL.toList "1".toList s) ∧
    (∀ p : List Char, trim (trim p) = trim p) := by
  refine ⟨?_, isStripped_trim, ?_, trim_trim⟩
  · intro p q s h
    rw [onMqttMessage_control, onMqttMessage_control, trim_of_isStripped p q h,
      trim_stripped p q h]
  · intro s
    rw [onMqttMessage_control, onMqttMessage_control]
    have h : trim " 1 \n".toList = trim "1".toList := by decide
    rw [h]

/-- C3 at payload "\t0 \r\n", whose stripped form is "0", in the boot state with the LED on. -/
theorem C3_surrounding_whitespace_ignored_witness :
    onMqttMessage TOPIC_CONTROL.toList "\t0 \r\n".toList { boot with led := true } =
      onMqttMessage TOPIC_CONTROL.toList "0".toList { boot with led := true } :=
  C3_surrounding_whitespace_ignored.1 "\t0 \r\n".toList "0".toList { boot with led := true }
    ⟨"\t".toList, " \r\n".toList, by decide, by decide, by decide, by decide, by decide⟩

/-! ## The retry timer: claims C4, C9, C10 -/

theorem loop_eq (millis : Nat) (connectOk : Bool) (millisFail : Nat) (s : State) :
    loop millis connectOk millisFail s =
      if s.mqttReconnect = true ∧
          intervaloMqttReconnect < sub32 (millis % U32) s.tPrevioMqttReconnect then
        connectToMqtt connectOk millisFail { s with tActual := millis % U32 }
      else { s with tActual := millis % U32 } := by
  unfold loop
  by_cases h : s.mqttReconnect = true ∧
      intervaloMqttReconnect < sub32 (millis % U32) s.tPrevioMqttReconnect
  · rw [if_pos h]
    simp [h.1, h.2]
  · rw [if_neg h]
    have : ¬ (s.mqttReconnect = true ∧
        sub32 (millis % U32) s.tPrevioMqttReconnect > intervaloMqttReconnect) := h
    simp only [Bool.and_eq_true, decide_eq_true_eq]
    rw [if_neg this]

theorem connectToMqtt_requests (connectOk : Bool) (millis : Nat) (s : State) :
    (connectToMqtt connectOk millis s).requests = s.requests ++ [Request.connect] := by
  unfold connectToMqtt
  cases connectOk <;> rfl

theorem loop_fires (millis : Nat) (connectOk : Bool) (millisFail : Nat) (s : State)
    (hflag : s.mqttReconnect = true)
    (hlate : intervaloMqttReconnect < sub32 (millis % U32) s.tPrevioMqttReconnect) :
    (loop millis connectOk millisFail s).requests = s.requests ++ [Request.connect] := by
  rw [loop_eq, if_pos ⟨hflag, hlate⟩, connectToMqtt_requests]

theorem loop_idle (millis : Nat) (connectOk : Bool) (millisFail : Nat) (s : State)
    (h : ¬ (s.mqttReconnect = true ∧
      intervaloMqttReconnect < sub32 (millis % U32) s.tPrevioMqttReconnect)) :
    loop millis connectOk millisFail s = { s with tActual := millis % U32 } := by
  rw [loop_eq, if_neg h]

theorem sub32_elapsed (t d : Nat) (hd : d < U32) :
    sub32 ((t + d) % U32) (t % U32) = d := by
  unfold sub32 U32 at *
  omega

/-- C4: for every state, after `connectToMqtt` fails at time `t1` the retry flag is set and
`tPrevioMqttReconnect` holds `t1` (as a `uint32_t`); a `loop` pass at any `t2` with `t1 < t2`
and `t2 - t1 < intervaloMqttReconnect` makes no `connect` call, and a `loop` pass at
`t1 + intervaloMqttReconnect + 1` makes one. -/
theorem C4_retry_waits_for_interval (s : State) (t1 : Nat) :
    (connectToMqtt false t1 s).mqttReconnect = true ∧
    (connectToMqtt false t1 s).tPrevioMqttReconnect = t1 % U32 ∧
    (∀ (t2 : Nat) (connectOk : Bool) (millisFail : Nat),
        t1 < t2 → t2 - t1 < intervaloMqttReconnect →
        (loop t2 connectOk millisFail (connectToMqtt false t1 s)).requests =
          (connectToMqtt false t1 s).requests) ∧
    (∀ (connectOk : Bool) (millisFail : Nat),
        (loop (t1 + intervaloMqttReconnect + 1) connectOk millisFail
            (connectToMqtt false t1 s)).requests =
          (connectToMqtt false t1 s).requests ++ [Request.connect]) := by
  refine ⟨rfl, rfl, ?_, ?_⟩
  · intro t2 connectOk millisFail h12 hlt
    rw [loop_idle]
    intro h
    have h2 := h.2
    have hprev : (connectToMqtt false t1 s).tPrevioMqttReconnect = t1 % U32 := rfl
    rw [hprev] at h2
    obtain ⟨d, rfl⟩ : ∃ d, t2 = t1 + d := ⟨t2 - t1, by omega⟩
    have hd : d < U32 := by
      unfold intervaloMqttReconnect at hlt
      unfold U32
      omega
    rw [sub32_elapsed t1 d hd] at h2
    omega
  · intro connectOk millisFail
    apply loop_fires
    · rfl
    · have hprev : (connectToMqtt false t1 s).tPrevioMqttReconnect = t1 % U32 := rfl
      rw [hprev, Nat.add_assoc, sub32_elapsed t1 (intervaloMqttReconnect + 1) (by decide)]
      omega

/-- C4 in the boot state with the failure at time 7000 and a pass at time 16999. -/
theorem C4_retry_waits_for_interval_witness :
    (loop 16999 true 16999 (connectToMqtt false 7000 boot)).requests =
      (connectToMqtt false 7000 boot).requests :=
  (C4_retry_waits_for_interval boot 7000).2.2.1 16999 true 16999 (by decide) (by decide)

/-- C9 fails at the boundary: after `onMqttDisconnect` at time 0 with WiFi connected, the
`loop` pass at exactly time 10000 makes no `connect` call and leaves the retry pending. -/
theorem C9_counterexample :
    (loop 10000 true 10000 (onMqttDisconnect 0 true 0 boot)).requests = [] ∧
    (loop 10000 true 10000 (onMqttDisconnect 0 true 0 boot)).mqttReconnect = true := by
  decide

/-- C9, amended: after `onMqttDisconnect` at time `t` with WiFi connected the retry flag is
set and `tPrevioMqttReconnect` holds `t` (as a `uint32_t`); no `loop` pass at a time from `t`
up to and including `t + intervaloMqttReconnect` makes a `connect` call, and the pass at
`t + intervaloMqttReconnect + 1` makes one. -/
theorem C9_retry_after_disconnect (s : State) (reason t : Nat) :
    (onMqttDisconnect reason true t s).mqttReconnect = true ∧
    (onMqttDisconnect reason true t s).tPrevioMqttReconnect = t % U32 ∧
    (∀ (t2 : Nat) (connectOk : Bool) (millisFail : Nat),
        t ≤ t2 → t2 ≤ t + intervaloMqttReconnect →
        (loop t2 connectOk millisFail (onMqttDisconnect reason true t s)).requests =
          (onMqttDisconnect reason true t s).requests) ∧
    (∀ (connectOk : Bool) (millisFail : Nat),
        (loop (t + intervaloMqttReconnect + 1) connectOk millisFail
            (onMqttDisconnect reason true t s)).requests =
          (onMqttDisconnect reason true t s).requests ++ [Request.connect]) := by
  have hprev : (onMqttDisconnect reason true t s).tPrevioMqttReconnect = t % U32 := rfl
  refine ⟨rfl, rfl, ?_, ?_⟩
  · intro t2 connectOk millisFail h12 hle
    rw [loop_idle]
    intro h
    have h2 := h.2
    rw [hprev] at h2
    obtain ⟨d, rfl⟩ : ∃ d, t2 = t + d := ⟨t2 - t, by omega⟩
    have hd : d < U32 := by
      unfold intervaloMqttReconnect at hle
      unfold U32
      omega
    rw [sub32_elapsed t d hd] at h2
    omega
  · intro connectOk millisFail
    apply loop_fires
    · rfl
    · rw [hprev, Nat.add_assoc, sub32_elapsed t (intervaloMqttReconnect + 1) (by decide)]
      omega

/-- C9, amended, in the boot state with the disconnect at time 500 and a pass at time 10500. -/
theorem C9_retry_after_disconnect_witness :
    (loop 10500 true 10500 (onMqttDisconnect 0 true 500 boot)).requests =
      (onMqttDisconnect 0 true 500 boot).requests :=
  (C9_retry_after_disconnect boot 0 500).2.2.1 10500 true 10500 (by decide) (by decide)

/-- C5: for every value of `sessionPresent`, every packet id returned by `publish` and by
`subscribe`, and every prior state, `onMqttConnect` makes exactly two calls on `mqttClient`,
in this order: `publish` to "ESP/status" with QoS 1, retain false and payload
"ESP32testing1 conectado" (the client id followed by " conectado"), then `subscribe` to
"ESP/control" with QoS 1; nothing else in the state changes. -/
theorem C5_connect_announces_then_subscribes (sessionPresent : Bool)
    (publishId subscribeId : Nat) (s : State) :
    onMqttConnect sessionPresent publishId subscribeId s =
      { s with requests := s.requests ++
          [Request.publish "ESP/status" 1 false "ESP32testing1 conectado",
           Request.subscribe "ESP/control" 1] } ∧
    "ESP32testing1 conectado" = MQTT_CLIENTID ++ " conectado" ∧
    TOPIC_STATUS = "ESP/status" ∧ TOPIC_CONTROL = "ESP/control" := by
  refine ⟨?_, by decide, rfl, rfl⟩
  unfold onMqttConnect
  have h : MQTT_CLIENTID ++ " conectado" = "ESP32testing1 conectado" := by decide
  simp [h, TOPIC_STATUS, TOPIC_CONTROL]

/-! ## Runs of the sketch: claims C6, C7, C8 -/

theorem connectCount_append_connect (l : List Request) :
    connectCount (l ++ [Request.connect]) = connectCount l + 1 := by
  simp [connectCount]

theorem onMqttMessage_frame (topic payload : List Char) (s : State) :
    (onMqttMessage topic payload s).mqttReconnect = s.mqttReconnect ∧
    (onMqttMessage topic payload s).requests = s.requests := by
  unfold onMqttMessage digitalWrite
  simp only []
  split_ifs <;> exact ⟨rfl, rfl⟩

theorem onMqttConnect_frame (sessionPresent : Bool) (publishId subscribeId : Nat) (s : State) :
    (onMqttConnect sessionPresent publishId subscribeId s).mqttReconnect = s.mqttReconnect ∧
    (onMqttConnect sessionPresent publishId subscribeId s).tPrevioMqttReconnect =
      s.tPrevioMqttReconnect ∧
    (onMqttConnect sessionPresent publishId subscribeId s).led = s.led ∧
    connectCount (onMqttConnect sessionPresent publishId subscribeId s).requests =
      connectCount s.requests := by
  refine ⟨rfl, rfl, rfl, ?_⟩
  simp [onMqttConnect, connectCount]

theorem loop_flag_clear (millis : Nat) (connectOk : Bool) (millisFail : Nat) (s : State)
    (h : s.mqttReconnect = false) :
    loop millis connectOk millisFail s = { s with tActual := millis % U32 } := by
  apply loop_idle
  intro hc
  rw [h] at hc
  exact absurd hc.1 (by decide)

/-- With the retry flag clear, a quiet event leaves it clear and calls no `connect`. -/
theorem quiet_step (s : State) (e : Event) (hflag : s.mqttReconnect = false)
    (hq : e.isQuiet = true) :
    (step s e).mqttReconnect = false ∧
    connectCount (step s e).requests = connectCount s.requests := by
  cases e with
  | tick millis connectOk millisFail =>
    simp only [step]
    rw [loop_flag_clear millis connectOk millisFail s hflag]
    exact ⟨hflag, rfl⟩
  | wifi event connectOk millis =>
    cases event with
    | SYSTEM_EVENT_STA_GOT_IP => exact absurd hq (by simp [Event.isQuiet, Event.isGotIp])
    | SYSTEM_EVENT_STA_DISCONNECTED => exact ⟨hflag, rfl⟩
    | other code => exact ⟨hflag, rfl⟩
  | mqttConnect sessionPresent publishId subscribeId =>
    simp only [step]
    have h := onMqttConnect_frame sessionPresent publishId subscribeId s
    exact ⟨h.1.trans hflag, h.2.2.2⟩
  | mqttDisconnect reason wifiConnected millis =>
    cases wifiConnected with
    | true => exact absurd hq (by simp [Event.isQuiet, Event.isDisconnectWithWiFi])
    | false => exact ⟨hflag, rfl⟩
  | mqttSubscribe packetId codes => exact ⟨hflag, rfl⟩
  | mqttUnsubscribe packetId => exact ⟨hflag, rfl⟩
  | mqttPublish packetId => exact ⟨hflag, rfl⟩
  | mqttMessage topic payload =>
    simp only [step]
    have h := onMqttMessage_frame topic payload s
    exact ⟨h.1.trans hflag, by rw [h.2]⟩

/-- With the retry flag clear, a run of quiet events leaves it clear and calls no `connect`. -/
theorem quiet_run (events : List Event) (s : State) (hflag : s.mqttReconnect = false)
    (hq : ∀ e ∈ events, e.isQuiet = true) :
    (run s events).mqttReconnect = false ∧
    connectCount (run s events).requests = connectCount s.requests := by
  induction events generalizing s with
  | nil => exact ⟨hflag, rfl⟩
  | cons e es ih =>
    have h1 := quiet_step s e hflag (hq e (List.mem_cons_self e es))
    have h2 := ih (step s e) h1.1 (fun x hx => hq x (List.mem_cons_of_mem e hx))
    have hrun : run s (e :: es) = run (step s e) es := rfl
    rw [hrun]
    exact ⟨h2.1, h2.2.trans h1.2⟩

/-- C7 fails when the retry is already pending. From boot: the link comes up and the
connection is established; the link drops and returns while the client still holds the
session, so the `connect()` of that `SYSTEM_EVENT_STA_GOT_IP` is refused and sets the retry
flag; the link drops again and `onMqttDisconnect` arrives with WiFi down. The flag is still
set, and the `loop` pass at time 75000 calls `connect()` although no link-up has followed. -/
theorem C7_counterexample :
    (run boot
      [Event.wifi WiFiEvent.SYSTEM_EVENT_STA_GOT_IP true 0,
       Event.mqttConnect false 1 2,
       Event.wifi WiFiEvent.SYSTEM_EVENT_STA_DISCONNECTED false 0,
       Event.wifi WiFiEvent.SYSTEM_EVENT_STA_GOT_IP false 60000,
       Event.wifi WiFiEvent.SYSTEM_EVENT_STA_DISCONNECTED false 0,
       Event.mqttDisconnect 0 false 61000]).mqttReconnect = true ∧
    (run boot
      [Event.wifi WiFiEvent.SYSTEM_EVENT_STA_GOT_IP true 0,
       Event.mqttConnect false 1 2,
       Event.wifi WiFiEvent.SYSTEM_EVENT_STA_DISCONNECTED false 0,
       Event.wifi WiFiEvent.SYSTEM_EVENT_STA_GOT_IP false 60000,
       Event.wifi WiFiEvent.SYSTEM_EVENT_STA_DISCONNECTED false 0,
       Event.mqttDisconnect 0 false 61000,
       Event.tick 75000 true 75000]).requests =
    (run boot
      [Event.wifi WiFiEvent.SYSTEM_EVENT_STA_GOT_IP true 0,
       Event.mqttConnect false 1 2,
       Event.wifi WiFiEvent.SYSTEM_EVENT_STA_DISCONNECTED false 0,
       Event.wifi WiFiEvent.SYSTEM_EVENT_STA_GOT_IP false 60000,
       Event.wifi WiFiEvent.SYSTEM_EVENT_STA_DISCONNECTED false 0,
       Event.mqttDisconnect 0 false 61000]).requests ++ [Request.connect] := by
  decide

/-- C7, amended: `onMqttDisconnect` with WiFi down returns the state unchanged, so it neither
sets nor clears the retry flag; and for every state whose retry flag is clear, after such an
`onMqttDisconnect` no `connect` call is made by any run of `loop` passes and callbacks, at
any times, that contains no `SYSTEM_EVENT_STA_GOT_IP` (and, the link being down, no
`onMqttDisconnect` that sees WiFi connected). -/
theorem C7_disconnect_without_wifi (s : State) (reason millis : Nat) :
    onMqttDisconnect reason false millis s = s ∧
    (s.mqttReconnect = false → ∀ events : List Event, (∀ e ∈ events, e.isQuiet = true) →
      connectCount (run (onMqttDisconnect reason false millis s) events).requests =
        connectCount s.requests) := by
  have h : onMqttDisconnect reason false millis s = s := rfl
  refine ⟨h, ?_⟩
  intro hflag events hq
  rw [h]
  exact (quiet_run events s hflag hq).2

/-- C7, amended, from boot: a disconnect with WiFi down at time 100, then passes of `loop`
at times 200, 20000 and 4000000000 with a link-down event in between. -/
theorem C7_disconnect_without_wifi_witness :
    connectCount (run (onMqttDisconnect 0 false 100 boot)
      [Event.tick 200 true 200, Event.tick 20000 true 20000,
       Event.wifi WiFiEvent.SYSTEM_EVENT_STA_DISCONNECTED false 0,
       Event.tick 4000000000 true 4000000000]).requests = connectCount boot.requests :=
  (C7_disconnect_without_wifi boot 0 100).2 rfl _ (by decide)

/-- C8 fails when the retry flag is set before the callback. From boot: the link comes up
and `connect()` succeeds; the link drops and returns, and the `connect()` of the second
`SYSTEM_EVENT_STA_GOT_IP` is refused at time 3000, which sets the flag; then `onMqttConnect`
arrives. The flag is still set, and the `loop` pass at time 13001 calls `connect()`. -/
theorem C8_counterexample :
    (run boot
      [Event.wifi WiFiEvent.SYSTEM_EVENT_STA_GOT_IP true 0,
       Event.wifi WiFiEvent.SYSTEM_EVENT_STA_DISCONNECTED false 0,
       Event.wifi WiFiEvent.SYSTEM_EVENT_STA_GOT_IP false 3000,
       Event.mqttConnect false 1 2]).mqttReconnect = true ∧
    (run boot
      [Event.wifi WiFiEvent.SYSTEM_EVENT_STA_GOT_IP true 0,
       Event.wifi WiFiEvent.SYSTEM_EVENT_STA_DISCONNECTED false 0,
       Event.wifi WiFiEvent.SYSTEM_EVENT_STA_GOT_IP false 3000,
       Event.mqttConnect false 1 2,
       Event.tick 13001 false 13001]).requests =
    (run boot
      [Event.wifi WiFiEvent.SYSTEM_EVENT_STA_GOT_IP true 0,
       Event.wifi WiFiEvent.SYSTEM_EVENT_STA_DISCONNECTED false 0,
       Event.wifi WiFiEvent.SYSTEM_EVENT_STA_GOT_IP false 3000,
       Event.mqttConnect false 1 2]).requests ++ [Request.connect] := by
  decide

/-- With the retry flag clear, an event that is neither a failed
`SYSTEM_EVENT_STA_GOT_IP` nor an `onMqttDisconnect` seeing WiFi connected leaves the flag
clear, and calls `connect` exactly when it is a `SYSTEM_EVENT_STA_GOT_IP`. -/
theorem unarmed_step (s : State) (e : Event) (hflag : s.mqttReconnect = false)
    (hfail : e.isFailedGotIp = false) (hdis : e.isDisconnectWithWiFi = false) :
    (step s e).mqttReconnect = false ∧
    connectCount (step s e).requests =
      connectCount s.requests + (if e.isGotIp = true then 1 else 0) := by
  cases e with
  | wifi event connectOk millis =>
    cases event with
    | SYSTEM_EVENT_STA_GOT_IP =>
      cases connectOk with
      | false => exact absurd hfail (by simp [Event.isFailedGotIp])
      | true =>
        refine ⟨rfl, ?_⟩
        have h : (step s (Event.wifi WiFiEvent.SYSTEM_EVENT_STA_GOT_IP true millis)).requests =
            s.requests ++ [Request.connect] := connectToMqtt_requests true millis s
        rw [h, connectCount_append_connect]
        rfl
    | SYSTEM_EVENT_STA_DISCONNECTED => exact ⟨hflag, rfl⟩
    | other code => exact ⟨hflag, rfl⟩
  | mqttDisconnect reason wifiConnected millis =>
    cases wifiConnected with
    | true => exact absurd hdis (by simp [Event.isDisconnectWithWiFi])
    | false => exact ⟨hflag, rfl⟩
  | tick millis connectOk millisFail =>
    exact quiet_step s _ hflag rfl
  | mqttConnect sessionPresent publishId subscribeId =>
    exact quiet_step s _ hflag rfl
  | mqttSubscribe packetId codes => exact quiet_step s _ hflag rfl
  | mqttUnsubscribe packetId => exact quiet_step s _ hflag rfl
  | mqttPublish packetId => exact quiet_step s _ hflag rfl
  | mqttMessage topic payload => exact quiet_step s _ hflag rfl

/-- With the retry flag clear, a run without failed `SYSTEM_EVENT_STA_GOT_IP` and without
`onMqttDisconnect` seeing WiFi connected leaves the flag clear, and its `connect` calls are
exactly those of its `SYSTEM_EVENT_STA_GOT_IP` events. -/
theorem unarmed_run (events : List Event) (s : State) (hflag : s.mqttReconnect = false)
    (hq : ∀ e ∈ events, e.isFailedGotIp = false ∧ e.isDisconnectWithWiFi = false) :
    (run s events).mqttReconnect = false ∧
    connectCount (run s events).requests =
      connectCount s.requests + (events.filter Event.isGotIp).length := by
  induction events generalizing s with
  | nil => exact ⟨hflag, rfl⟩
  | cons e es ih =>
    have he := hq e (List.mem_cons_self e es)
    have h1 := unarmed_step s e hflag he.1 he.2
    have h2 := ih (step s e) h1.1 (fun x hx => hq x (List.mem_cons_of_mem e hx))
    have hrun : run s (e :: es) = run (step s e) es := rfl
    rw [hrun]
    refine ⟨h2.1, ?_⟩
    rw [h2.2, h1.2]
    cases hg : e.isGotIp
    · simp [List.filter_cons, hg]
    · simp [List.filter_cons, hg]
      omega

/-- C8, amended: `onMqttConnect` leaves the retry flag and `tPrevioMqttReconnect` as they
were; the flag is cleared by `connectToMqtt` when `connect()` returns true. For every prior
state whose flag is clear, after `onMqttConnect` and any run of events that contains no
`onMqttDisconnect` seeing WiFi connected and no failed attempt (a `SYSTEM_EVENT_STA_GOT_IP`
whose `connect()` returns false), the flag is still clear, a `loop` pass at any time changes
nothing but `tActual`, and the `connect` calls made during the run are exactly one per
`SYSTEM_EVENT_STA_GOT_IP`, none by a `loop` pass. -/
theorem C8_connect_callback_keeps_flag (s : State) (sessionPresent : Bool)
    (publishId subscribeId : Nat) :
    (onMqttConnect sessionPresent publishId subscribeId s).mqttReconnect = s.mqttReconnect ∧
    (onMqttConnect sessionPresent publishId subscribeId s).tPrevioMqttReconnect =
      s.tPrevioMqttReconnect ∧
    (∀ (millis : Nat) (s0 : State), (connectToMqtt true millis s0).mqttReconnect = false) ∧
    (s.mqttReconnect = false → ∀ events : List Event,
      (∀ e ∈ events, e.isFailedGotIp = false ∧ e.isDisconnectWithWiFi = false) →
      (run (onMqttConnect sessionPresent publishId subscribeId s) events).mqttReconnect = false ∧
      connectCount (run (onMqttConnect sessionPresent publishId subscribeId s) events).requests =
        connectCount s.requests + (events.filter Event.isGotIp).length ∧
      (∀ (millis : Nat) (connectOk : Bool) (millisFail : Nat),
        loop millis connectOk millisFail
            (run (onMqttConnect sessionPresent publishId subscribeId s) events) =
          { run (onMqttConnect sessionPresent publishId subscribeId s) events with
            tActual := millis % U32 })) := by
  have hf := onMqttConnect_frame sessionPresent publishId subscribeId s
  refine ⟨hf.1, hf.2.1, fun _ _ => rfl, ?_⟩
  intro hflag events hq
  have h := unarmed_run events (onMqttConnect sessionPresent publishId subscribeId s)
    (hf.1.trans hflag) hq
  refine ⟨h.1, ?_, ?_⟩
  · rw [h.2, hf.2.2.2]
  · intro millis connectOk millisFail
    exact loop_flag_clear millis connectOk millisFail _ h.1

/-- C8, amended, after a successful `connect()` from boot: a disconnect with WiFi down, a
link-up whose `connect()` succeeds, passes of `loop` at times 50000 and 4000000000 and a
message on the control topic. The only `connect` call of the run is that of the link-up, and
a further pass at time 4000020000 calls none. -/
theorem C8_connect_callback_keeps_flag_witness :
    (run (onMqttConnect false 1 2 (connectToMqtt true 0 boot))
      [Event.mqttDisconnect 0 false 20000,
       Event.wifi WiFiEvent.SYSTEM_EVENT_STA_GOT_IP true 30000,
       Event.tick 50000 true 50000,
       Event.mqttMessage TOPIC_CONTROL.toList "1".toList,
       Event.tick 4000000000 true 4000000000]).mqttReconnect = false ∧
    connectCount (run (onMqttConnect false 1 2 (connectToMqtt true 0 boot))
      [Event.mqttDisconnect 0 false 20000,
       Event.wifi WiFiEvent.SYSTEM_EVENT_STA_GOT_IP true 30000,
       Event.tick 50000 true 50000,
       Event.mqttMessage TOPIC_CONTROL.toList "1".toList,
       Event.tick 4000000000 true 4000000000]).requests =
      connectCount (connectToMqtt true 0 boot).requests + 1 ∧
    (loop 4000020000 true 4000020000
      (run (onMqttConnect false 1 2 (connectToMqtt true 0 boot))
        [Event.mqttDisconnect 0 false 20000,
         Event.wifi WiFiEvent.SYSTEM_EVENT_STA_GOT_IP true 30000,
         Event.tick 50000 true 50000,
         Event.mqttMessage TOPIC_CONTROL.toList "1".toList,
         Event.tick 4000000000 true 4000000000])).requests =
      (run (onMqttConnect false 1 2 (connectToMqtt true 0 boot))
        [Event.mqttDisconnect 0 false 20000,
         Event.wifi WiFiEvent.SYSTEM_EVENT_STA_GOT_IP true 30000,
         Event.tick 50000 true 50000,
         Event.mqttMessage TOPIC_CONTROL.toList "1".toList,
         Event.tick 4000000000 true 4000000000]).requests :=
  have h := (C8_connect_callback_keeps_flag (connectToMqtt true 0 boot) false 1 2).2.2.2 rfl
    [Event.mqttDisconnect 0 false 20000,
     Event.wifi WiFiEvent.SYSTEM_EVENT_STA_GOT_IP true 30000,
     Event.tick 50000 true 50000,
     Event.mqttMessage TOPIC_CONTROL.toList "1".toList,
     Event.tick 4000000000 true 4000000000] (by decide)
  ⟨h.1, h.2.1, by rw [h.2.2 4000020000 true 4000020000]⟩

theorem callsConnect_of_requests_eq (s : State) (e : Event)
    (h : (step s e).requests = s.requests) : callsConnect s e = false := by
  simp [callsConnect, h]

/-- The invariant behind C6: unless a `SYSTEM_EVENT_STA_GOT_IP` has arrived during a flight,
no `connect()` has been called during a flight, and the retry flag is clear whenever an
attempt is in flight. -/
theorem observe_inv (f : Flight) (s : State) (e : Event)
    (h : f.gotIpInFlight = true ∨
      (f.overlap = false ∧ (f.inFlight = true → s.mqttReconnect = false))) :
    (f.observe s e).gotIpInFlight = true ∨
      ((f.observe s e).overlap = false ∧
        ((f.observe s e).inFlight = true → (step s e).mqttReconnect = false)) := by
  rcases h with h | ⟨hov, hfl⟩
  · left
    simp [Flight.observe, h]
  · have frame : (step s e).requests = s.requests →
        (step s e).mqttReconnect = s.mqttReconnect → e.isBrokerCallback = false →
        (f.observe s e).overlap = false ∧
          ((f.observe s e).inFlight = true → (step s e).mqttReconnect = false) := by
      intro hreq hflag hcb
      have hcall := callsConnect_of_requests_eq s e hreq
      constructor
      · simp [Flight.observe, hov, hcall]
      · intro hin
        have hf : f.inFlight = true := by
          simpa [Flight.observe, hcall, hcb] using hin
        rw [hflag]
        exact hfl hf
    have ended : (step s e).requests = s.requests ∨
        connectCount (step s e).requests = connectCount s.requests →
        e.isBrokerCallback = true →
        (f.observe s e).overlap = false ∧
          ((f.observe s e).inFlight = true → (step s e).mqttReconnect = false) := by
      intro hreq hcb
      have hcall : callsConnect s e = false := by
        rcases hreq with hreq | hreq
        · exact callsConnect_of_requests_eq s e hreq
        · simp [callsConnect, hreq]
      constructor
      · simp [Flight.observe, hov, hcall]
      · intro hin
        simp [Flight.observe, hcall, hcb] at hin
    have called : ∀ (connectOk : Bool) (millis : Nat) (s1 : State),
        step s e = connectToMqtt connectOk millis s1 → e.connectOk = connectOk →
        f.inFlight = false →
        (f.observe s e).overlap = false ∧
          ((f.observe s e).inFlight = true → (step s e).mqttReconnect = false) := by
      intro connectOk millis s1 hstep hok hnf
      constructor
      · simp [Flight.observe, hov, hnf]
      · intro hin
        cases connectOk with
        | true => rw [hstep]; rfl
        | false =>
          cases hcb : e.isBrokerCallback <;>
            simp [Flight.observe, hok, hnf, hcb] at hin
    cases e with
    | tick millis connectOk millisFail =>
      right
      by_cases hc : s.mqttReconnect = true ∧
          intervaloMqttReconnect < sub32 (millis % U32) s.tPrevioMqttReconnect
      · have hnf : f.inFlight = false := by
          cases hf : f.inFlight with
          | false => rfl
          | true =>
            have := hfl hf
            rw [this] at hc
            exact absurd hc.1 (by decide)
        apply called connectOk millisFail { s with tActual := millis % U32 } _ rfl hnf
        simp only [step]
        rw [loop_eq, if_pos hc]
      · have hstep : step s (Event.tick millis connectOk millisFail) =
            { s with tActual := millis % U32 } := by
          simp only [step]
          rw [loop_eq, if_neg hc]
        exact frame (by rw [hstep]) (by rw [hstep]) rfl
    | wifi event connectOk millis =>
      cases event with
      | SYSTEM_EVENT_STA_GOT_IP =>
        cases hf : f.inFlight with
        | true =>
          left
          simp [Flight.observe, Event.isGotIp, hf]
        | false =>
          right
          exact called connectOk millis s rfl rfl hf
      | SYSTEM_EVENT_STA_DISCONNECTED => right; exact frame rfl rfl rfl
      | other code => right; exact frame rfl rfl rfl
    | mqttConnect sessionPresent publishId subscribeId =>
      right
      exact ended (Or.inr (onMqttConnect_frame sessionPresent publishId subscribeId s).2.2.2) rfl
    | mqttDisconnect reason wifiConnected millis =>
      right
      apply ended _ rfl
      left
      simp only [step, onMqttDisconnect]
      split_ifs <;> rfl
    | mqttSubscribe packetId codes => right; exact frame rfl rfl rfl
    | mqttUnsubscribe packetId => right; exact frame rfl rfl rfl
    | mqttPublish packetId => right; exact frame rfl rfl rfl
    | mqttMessage topic payload =>
      right
      have hm := onMqttMessage_frame topic payload s
      exact frame hm.2 hm.1 rfl

theorem monitor_inv (events : List Event) (f : Flight) (s : State)
    (h : f.gotIpInFlight = true ∨
      (f.overlap = false ∧ (f.inFlight = true → s.mqttReconnect = false))) :
    (monitor f s events).gotIpInFlight = true ∨ (monitor f s events).overlap = false := by
  induction events generalizing f s with
  | nil =>
    rcases h with h | h
    · exact Or.inl h
    · exact Or.inr h.1
  | cons e es ih => exact ih (f.observe s e) (step s e) (observe_inv f s e h)

/-- C6 fails on a repeated link-up. From boot: `SYSTEM_EVENT_STA_GOT_IP` calls `connect()`,
which returns true, so an attempt is in flight; the link drops and returns before any broker
callback, and the second `SYSTEM_EVENT_STA_GOT_IP` calls `connect()` again. -/
theorem C6_counterexample :
    (monitor Flight.start boot
      [Event.wifi WiFiEvent.SYSTEM_EVENT_STA_GOT_IP true 0,
       Event.wifi WiFiEvent.SYSTEM_EVENT_STA_DISCONNECTED false 0,
       Event.wifi WiFiEvent.SYSTEM_EVENT_STA_GOT_IP false 5000]).overlap = true ∧
    (run boot
      [Event.wifi WiFiEvent.SYSTEM_EVENT_STA_GOT_IP true 0,
       Event.wifi WiFiEvent.SYSTEM_EVENT_STA_DISCONNECTED false 0,
       Event.wifi WiFiEvent.SYSTEM_EVENT_STA_GOT_IP false 5000]).requests =
      [Request.connect, Request.connect] := by
  decide

/-- C6, amended: `WiFiStatus` calls `connect()` on every `SYSTEM_EVENT_STA_GOT_IP`, whatever
the state. Apart from that the sketch makes no `connect` call while an attempt is in flight:
in every run from boot in which no `SYSTEM_EVENT_STA_GOT_IP` arrives during a flight, no
`connect()` is called during a flight; and after a `connect()` that returned true, no run
of events without `SYSTEM_EVENT_STA_GOT_IP` and without broker callback calls `connect()`. -/
theorem C6_connect_in_flight_only_after_got_ip :
    (∀ (s : State) (connectOk : Bool) (millis : Nat),
      (WiFiStatus WiFiEvent.SYSTEM_EVENT_STA_GOT_IP connectOk millis s).requests =
        s.requests ++ [Request.connect]) ∧
    (∀ events : List Event,
      (monitor Flight.start boot events).gotIpInFlight = false →
      (monitor Flight.start boot events).overlap = false) ∧
    (∀ (s : State) (millis : Nat) (events : List Event),
      (∀ e ∈ events, e.isGotIp = false ∧ e.isBrokerCallback = false) →
      connectCount (run (connectToMqtt true millis s) events).requests =
        connectCount (connectToMqtt true millis s).requests) := by
  refine ⟨?_, ?_, ?_⟩
  · intro s connectOk millis
    exact connectToMqtt_requests connectOk millis s
  · intro events hno
    rcases monitor_inv events Flight.start boot (Or.inr ⟨rfl, fun _ => rfl⟩) with h | h
    · rw [h] at hno
      exact absurd hno (by decide)
    · exact h
  · intro s millis events hq
    apply (quiet_run events (connectToMqtt true millis s) rfl _).2
    intro e he
    have h := hq e he
    cases e with
    | mqttDisconnect reason wifiConnected t =>
      exact absurd h.2 (by simp [Event.isBrokerCallback])
    | tick a b c => rfl
    | wifi event b c =>
      have h1 := h.1
      cases event with
      | SYSTEM_EVENT_STA_GOT_IP => exact absurd h1 (by simp [Event.isGotIp])
      | SYSTEM_EVENT_STA_DISCONNECTED => rfl
      | other code => rfl
    | mqttConnect a b c => rfl
    | mqttSubscribe a b => rfl
    | mqttUnsubscribe a => rfl
    | mqttPublish a => rfl
    | mqttMessage a b => rfl

/-- C6, amended, on a run from boot with two flights: link-up and connect, a pass of `loop`,
the connected callback, a disconnect with WiFi up at time 100000, the retry at time 110001,
and the connected callback again. -/
theorem C6_connect_in_flight_only_after_got_ip_witness :
    (monitor Flight.start boot
      [Event.wifi WiFiEvent.SYSTEM_EVENT_STA_GOT_IP true 0,
       Event.tick 5 true 5,
       Event.mqttConnect false 1 2,
       Event.mqttDisconnect 7 true 100000,
       Event.tick 110001 true 110001,
       Event.tick 110002 true 110002,
       Event.mqttConnect false 3 4]).overlap = false ∧
    connectCount (run (connectToMqtt true 0 boot)
      [Event.tick 20000 true 20000,
       Event.wifi WiFiEvent.SYSTEM_EVENT_STA_DISCONNECTED false 0,
       Event.tick 40000 true 40000]).requests =
      connectCount (connectToMqtt true 0 boot).requests :=
  ⟨C6_connect_in_flight_only_after_got_ip.2.1 _ (by decide),
   C6_connect_in_flight_only_after_got_ip.2.2 boot 0 _ (by decide)⟩

end EspMqttClientSub
